import Mathlib

/-!
A verification development for the trigger-routing and scheduling engine of
the whatsapp-llm-bot repository.

The Go sources are shallowly embedded:

* Go strings are modelled as `List Char` (Go code here only compares and
  slices whole runes, so the byte/rune distinction is immaterial: a byte-level
  prefix of valid UTF-8 text is exactly a rune-level prefix).
* The effectful collaborators of `ChatService` and `SchedulerService`
  (message repository, WhatsApp client, LLM provider, webhook HTTP client)
  are modelled as explicit environments of response functions, and each
  service method is a pure function from the environment and its arguments to
  the ordered list of side effects it attempts plus its return value.
* `fmt.Errorf("...: %w", err)` wrapping is modelled by error constructors
  carrying the wrapped error.
-/

/-- Go strings, modelled at the rune level. -/
abbrev GoStr := List Char

/-- `unicode.IsSpace`: the Unicode White_Space property, as used by Go's
`strings.TrimSpace`. -/
def goIsSpace (c : Char) : Bool :=
  let n := c.toNat
  (0x09 ≤ n && n ≤ 0x0D) || n == 0x20 || n == 0x85 || n == 0xA0 ||
  n == 0x1680 || (0x2000 ≤ n && n ≤ 0x200A) ||
  n == 0x2028 || n == 0x2029 || n == 0x202F || n == 0x205F || n == 0x3000

/-- Go `strings.TrimSpace`: drop leading and trailing white space. -/
def TrimSpace (s : GoStr) : GoStr :=
  ((s.dropWhile goIsSpace).reverse.dropWhile goIsSpace).reverse

/-- Go `strings.HasPrefix s p`: `p` is a prefix of `s`. -/
def HasPrefix (s p : GoStr) : Bool :=
  p.isPrefixOf s

/-- Go `strings.TrimPrefix s p`: `s` without the leading `p`, or `s`
unchanged when `p` is not a prefix of `s`. -/
def TrimPrefix (s p : GoStr) : GoStr :=
  if HasPrefix s p then s.drop p.length else s

/-! ## Domain model (internal/core/domain/models.go) -/

/-- `domain.Message`. The timestamp is kept as Unix seconds, which is all the
router uses of it (`message.Timestamp.Unix()`). -/
structure Message where
  ID : GoStr
  GroupJID : GoStr
  Sender : GoStr
  Content : GoStr
  Timestamp : Int
  IsFromBot : Bool
  IsReplyToBot : Bool
deriving DecidableEq, Repr

/-- `domain.WebhookConfig`. -/
structure WebhookConfig where
  SubTrigger : GoStr
  URL : GoStr
  Timeout : GoStr
deriving DecidableEq, Repr

/-- `domain.WebhookResponse`. -/
structure WebhookResponse where
  ContentType : GoStr
  Content : List UInt8
  TextContent : GoStr
deriving DecidableEq, Repr

/-- `domain.LLMRequest`. -/
structure LLMRequest where
  Prompt : GoStr
  Context : List Message
deriving DecidableEq, Repr

/-- `domain.LLMResponse`; `Error = none` models a nil error field. -/
structure LLMResponse where
  Content : GoStr
  Error : Option GoStr
deriving DecidableEq, Repr

/-! ## Effects and environment of `ChatService` -/

/-- One attempted side effect of the trigger router, in program order:
repository saves, WhatsApp sends, webhook calls and LLM generations. -/
inductive Effect where
  | save (m : Message)
  | sendReply (groupJID text replyToMessageID quotedSender : GoStr)
  | sendImage (groupJID : GoStr) (data : List UInt8)
      (mime caption replyToMessageID quotedSender : GoStr)
  | callWebhook (url payload : GoStr)
  | generate (req : LLMRequest)
deriving DecidableEq, Repr

/-- Return value of `ProcessMessage`/`processWebhookMessage`: each
constructor is one of the `fmt.Errorf` wrappers in chat_service.go, carrying
the collaborator error it wraps. -/
inductive ProcErr where
  | saveMessage (e : GoStr)
  | getContext (e : GoStr)
  | generateResponse (e : Option GoStr)
  | sendMessage (e : GoStr)
  | callWebhook (e : GoStr)
  | sendImage (e : GoStr)
deriving DecidableEq, Repr

/-- Behaviour of the router's collaborators for one invocation: each field
gives the outcome of one interface call (`none`/`Except.ok` = nil error).
`formatWebhook` stands for the pure text reformatter `FormatWebhookResponse`
(markdown-to-WhatsApp conversion, outside the routing core); the routing
logic only pipes its output through, so it is kept abstract here. -/
structure ChatEnv where
  isAllowed : GoStr → Bool
  saveErr : Message → Option GoStr
  getCtx : GoStr → Nat → Except GoStr (List Message)
  generate : LLMRequest → LLMResponse × Option GoStr
  sendReplyErr : GoStr → GoStr → GoStr → GoStr → Option GoStr
  sendImageErr : GoStr → List UInt8 → GoStr → GoStr → GoStr → GoStr → Option GoStr
  webhookCall : GoStr → GoStr → Except GoStr WebhookResponse
  formatWebhook : GoStr → GoStr

/-- The fixed user-facing error text of chat_service.go. -/
def errorMsg : GoStr :=
  ("Sorry, I cannot process this request right now due to a technical error. " ++
    "Please try again later.").data

/-- `fmt.Sprintf("bot-%d", message.Timestamp.Unix())`. -/
def botID (ts : Int) : GoStr := ("bot-" ++ toString ts).data

/-- The synthetic bot message persisted after a successful send
(chat_service.go:145-152 and 247-254). -/
def mkBotMessage (message : Message) (content : GoStr) : Message :=
  { ID := botID message.Timestamp
    GroupJID := message.GroupJID
    Sender := "bot".data
    Content := content
    Timestamp := message.Timestamp
    IsFromBot := true
    IsReplyToBot := false }

/-- `ChatService.findMatchingWebhook` (chat_service.go:162-176): first
configured webhook whose sub-trigger is a prefix of the trimmed content. -/
def findMatchingWebhook (webhookConfigs : List WebhookConfig) (content : GoStr) :
    Option WebhookConfig :=
  let trimmedContent := TrimSpace content
  webhookConfigs.find? (fun webhook => HasPrefix trimmedContent webhook.SubTrigger)

/-- `ChatService.processWebhookMessage` (chat_service.go:179-261), as the
list of attempted effects plus the returned error. Failed sends of the
user-facing error text and failed saves of the bot message are attempted and
merely logged, so they appear in the trace without changing the result. -/
def processWebhookMessage (env : ChatEnv) (message : Message)
    (webhook : WebhookConfig) : List Effect × Except ProcErr Unit :=
  let userMessage := TrimSpace (TrimPrefix message.Content webhook.SubTrigger)
  match env.saveErr message with
  | some e => ([.save message], .error (.saveMessage e))
  | none =>
    match env.webhookCall webhook.URL userMessage with
    | .error e =>
        ([.save message, .callWebhook webhook.URL userMessage,
          .sendReply message.GroupJID errorMsg message.ID message.Sender],
         .error (.callWebhook e))
    | .ok response =>
      if response.ContentType == "image/jpeg".data ||
          response.ContentType == "image/png".data then
        match env.sendImageErr message.GroupJID response.Content
            response.ContentType [] message.ID message.Sender with
        | some e =>
            ([.save message, .callWebhook webhook.URL userMessage,
              .sendImage message.GroupJID response.Content response.ContentType
                [] message.ID message.Sender],
             .error (.sendImage e))
        | none =>
            let botMessage := mkBotMessage message "[Image sent]".data
            ([.save message, .callWebhook webhook.URL userMessage,
              .sendImage message.GroupJID response.Content response.ContentType
                [] message.ID message.Sender,
              .save botMessage], .ok ())
      else
        let formattedText := env.formatWebhook response.TextContent
        match env.sendReplyErr message.GroupJID formattedText message.ID
            message.Sender with
        | some e =>
            ([.save message, .callWebhook webhook.URL userMessage,
              .sendReply message.GroupJID formattedText message.ID message.Sender],
             .error (.sendMessage e))
        | none =>
            let botMessage := mkBotMessage message formattedText
            ([.save message, .callWebhook webhook.URL userMessage,
              .sendReply message.GroupJID formattedText message.ID message.Sender,
              .save botMessage], .ok ())

/-- The tail of `ChatService.ProcessMessage` (chat_service.go:95-158): save
the inbound message, fetch up to 10 context messages, generate an LLM reply
and send it, persisting the bot message on success. -/
def generateAndReply (env : ChatEnv) (message : Message) :
    List Effect × Except ProcErr Unit :=
  match env.saveErr message with
  | some e => ([.save message], .error (.saveMessage e))
  | none =>
    match env.getCtx message.GroupJID 10 with
    | .error e => ([.save message], .error (.getContext e))
    | .ok contextMsgs =>
      let llmRequest : LLMRequest := { Prompt := message.Content, Context := contextMsgs }
      let (response, genErr) := env.generate llmRequest
      if genErr.isSome || response.Error.isSome then
        ([.save message, .generate llmRequest,
          .sendReply message.GroupJID errorMsg message.ID message.Sender],
         .error (.generateResponse genErr))
      else
        match env.sendReplyErr message.GroupJID response.Content message.ID
            message.Sender with
        | some e =>
            ([.save message, .generate llmRequest,
              .sendReply message.GroupJID response.Content message.ID message.Sender],
             .error (.sendMessage e))
        | none =>
            let botMessage := mkBotMessage message response.Content
            ([.save message, .generate llmRequest,
              .sendReply message.GroupJID response.Content message.ID message.Sender,
              .save botMessage], .ok ())

/-- `ChatService.ProcessMessage` (chat_service.go:51-159). `triggerWords` and
`webhookConfigs` are the service's configuration snapshot for this
invocation. Note that the trigger branch runs only when the configured
trigger list is non-empty and the message is not a reply to the bot, and that
the matched trigger is trimmed off `message.Content` (the original, untrimmed
content), while matching itself used the trimmed content. -/
def ProcessMessage (env : ChatEnv) (triggerWords : List GoStr)
    (webhookConfigs : List WebhookConfig) (message : Message) :
    List Effect × Except ProcErr Unit :=
  if !(env.isAllowed message.GroupJID) then ([], .ok ())
  else if triggerWords.length > 0 && !message.IsReplyToBot then
    let trimmedContent := TrimSpace message.Content
    match triggerWords.find? (fun trigger => HasPrefix trimmedContent trigger) with
    | none => ([], .ok ())
    | some trigger =>
      let message' := { message with
        Content := TrimSpace (TrimPrefix message.Content trigger) }
      match findMatchingWebhook webhookConfigs message'.Content with
      | some webhook => processWebhookMessage env message' webhook
      | none => generateAndReply env message'
  else
    generateAndReply env message

/-! ## Schedule evaluator (internal/core/services/scheduler_service.go) -/

/-- A calendar date, as compared by `Format("2006-01-02")` equality: for the
dates the system handles, two formatted date strings are equal exactly when
their year/month/day components are. -/
structure GoDate where
  year : Int
  month : Int
  day : Int
deriving DecidableEq, Repr

/-- The fields of the local wall-clock instant `now := time.Now()` that
`checkSchedules` reads: `now.Sub` differences are taken on `unixNano`
(Go durations are nanoseconds), the rest are the local calendar fields. -/
structure GoTime where
  unixNano : Int
  date : GoDate
  weekday : Int
  hour : Int
  minute : Int
deriving DecidableEq, Repr

/-- `domain.Schedule`. `LastRun` is the nanosecond instant of the last run
(`nil` modelled as `none`); `SpecificDate` is the date of the stored
one-time timestamp. -/
structure Schedule where
  ID : GoStr
  Name : GoStr
  GroupJID : GoStr
  WebhookURL : GoStr
  ScheduleType : GoStr
  DayOfWeek : Option Int
  Month : Option Int
  DayOfMonth : Option Int
  Hour : Int
  Minute : Int
  SpecificDate : Option GoDate
  Enabled : Bool
  LastRun : Option Int
  CreatedAt : Int
  UpdatedAt : Int
deriving DecidableEq, Repr

/-- `domain.ScheduleExecution`; Go's zero string values are `[]`. -/
structure ScheduleExecution where
  ID : GoStr
  ScheduleID : GoStr
  ExecutedAt : Int
  Success : Bool
  Error : GoStr
  Response : GoStr
deriving DecidableEq, Repr

/-- The `shouldExecute` computation of `SchedulerService.checkSchedules`
(scheduler_service.go:394-443): the switch over the schedule kind, matching
the current local calendar fields; a kind with its required field(s) nil, or
an unknown kind, never matches. -/
def shouldExecuteSchedule (schedule : Schedule) (now : GoTime) : Bool :=
  if schedule.ScheduleType == "once".data then
    match schedule.SpecificDate with
    | some scheduleDate =>
        now.date == scheduleDate &&
        schedule.Hour == now.hour && schedule.Minute == now.minute
    | none => false
  else if schedule.ScheduleType == "yearly".data then
    match schedule.Month, schedule.DayOfMonth with
    | some m, some dayOfMonth =>
        m == now.date.month && dayOfMonth == now.date.day &&
        schedule.Hour == now.hour && schedule.Minute == now.minute
    | _, _ => false
  else if schedule.ScheduleType == "weekly".data then
    match schedule.DayOfWeek with
    | some w =>
        w == now.weekday &&
        schedule.Hour == now.hour && schedule.Minute == now.minute
    | none => false
  else false

/-- `1 * time.Minute` in nanoseconds. -/
def minuteNanos : Int := 60000000000

/-- The duplicate-fire guard (scheduler_service.go:452):
`schedule.LastRun != nil && now.Sub(*schedule.LastRun) < 1*time.Minute`. -/
def recentlyRun (schedule : Schedule) (now : GoTime) : Bool :=
  match schedule.LastRun with
  | some lastRun => now.unixNano - lastRun < minuteNanos
  | none => false

/-- A schedule fires on an evaluation pass iff its calendar rule matches the
current minute and the duplicate-fire guard does not skip it
(scheduler_service.go:450-455). -/
def scheduleFires (schedule : Schedule) (now : GoTime) : Bool :=
  shouldExecuteSchedule schedule now && !(recentlyRun schedule now)

/-- One attempted side effect of the schedule evaluator, in program order. -/
inductive SchedEffect where
  | updateLastRun (id : GoStr) (t : Int)
  | callWebhook (url payload : GoStr)
  | sendImage (groupJID : GoStr) (data : List UInt8)
      (mime caption replyToMessageID quotedSender : GoStr)
  | sendMessage (groupJID text : GoStr)
  | logExecution (e : ScheduleExecution)
  | updateSchedule (s : Schedule)
deriving DecidableEq, Repr

/-- Collaborator behaviour for one `executeSchedule` call; as in `ChatEnv`,
`formatWebhook` abstracts the pure text reformatter. -/
structure SchedEnv where
  webhookCall : GoStr → GoStr → Except GoStr WebhookResponse
  sendImageErr : GoStr → List UInt8 → GoStr → GoStr → GoStr → GoStr → Option GoStr
  sendMessageErr : GoStr → GoStr → Option GoStr
  formatWebhook : GoStr → GoStr

/-- `SchedulerService.executeSchedule` (scheduler_service.go:480-547) for a
single schedule: `execID` is the fresh execution UUID and `execTime` the
`time.Now()` nanosecond instant taken at entry. Returns the attempted
effects; the `UpdateLastRun` and `LogExecution` repository calls are
best-effort (failures only logged), so they appear unconditionally. -/
def executeSchedule (env : SchedEnv) (schedule : Schedule)
    (execID : GoStr) (execTime : Int) : List SchedEffect :=
  let execution : ScheduleExecution :=
    { ID := execID, ScheduleID := schedule.ID, ExecutedAt := execTime,
      Success := false, Error := [], Response := [] }
  match env.webhookCall schedule.WebhookURL [] with
  | .error e =>
      [.updateLastRun schedule.ID execTime,
       .callWebhook schedule.WebhookURL [],
       .logExecution { execution with Success := false, Error := e }]
  | .ok response =>
      if response.ContentType == "image/jpeg".data ||
          response.ContentType == "image/png".data then
        match env.sendImageErr schedule.GroupJID response.Content
            response.ContentType [] [] [] with
        | some e =>
            [.updateLastRun schedule.ID execTime,
             .callWebhook schedule.WebhookURL [],
             .sendImage schedule.GroupJID response.Content response.ContentType
               [] [] [],
             .logExecution { execution with
                 Success := false, Error := "failed to send image: ".data ++ e }]
        | none =>
            [.updateLastRun schedule.ID execTime,
             .callWebhook schedule.WebhookURL [],
             .sendImage schedule.GroupJID response.Content response.ContentType
               [] [] [],
             .logExecution { execution with
                 Success := true, Response := "[Image sent]".data }]
      else
        let formattedText := env.formatWebhook response.TextContent
        match env.sendMessageErr schedule.GroupJID formattedText with
        | some e =>
            [.updateLastRun schedule.ID execTime,
             .callWebhook schedule.WebhookURL [],
             .sendMessage schedule.GroupJID formattedText,
             .logExecution { execution with
                 Success := false, Error := "failed to send message: ".data ++ e }]
        | none =>
            [.updateLastRun schedule.ID execTime,
             .callWebhook schedule.WebhookURL [],
             .sendMessage schedule.GroupJID formattedText,
             .logExecution { execution with
                 Success := true, Response := formattedText }]

/-- A tick-level action dispatched by `checkSchedules`: `fire s` stands for
`go s.executeSchedule(ctx, schedule)`, `disable s'` for the goroutine that
sets `Enabled = false` on the schedule and persists it via
`repository.Update` (scheduler_service.go:463-474). -/
inductive TickAction where
  | fire (s : Schedule)
  | disable (s : Schedule)
deriving DecidableEq, Repr

/-- `SchedulerService.checkSchedules` (scheduler_service.go:372-477) over an
in-memory image of the schedule store: `GetEnabled` is the SQLite
`SELECT ... WHERE enabled = 1` (schedule_repository.go:200-214), modelled as
a filter; each enabled schedule that matches and passes the duplicate-fire
guard is fired, and one-time schedules additionally get a disable update.
The disable action is emitted independently of the fire's outcome, which is
decided later inside the fire goroutine. -/
def checkSchedulesActions (store : List Schedule) (now : GoTime) : List TickAction :=
  (store.filter (fun s => s.Enabled)).flatMap (fun schedule =>
    if scheduleFires schedule now then
      TickAction.fire schedule ::
        (if schedule.ScheduleType == "once".data then
          [TickAction.disable { schedule with Enabled := false }]
        else [])
    else [])

/-- The schedules fired by one evaluation pass. -/
def firedSchedules (store : List Schedule) (now : GoTime) : List Schedule :=
  (store.filter (fun s => s.Enabled)).filter (fun schedule => scheduleFires schedule now)

/-- The store contents after one evaluation pass at `now`, once the
asynchronous per-fire updates have completed successfully before the next
pass: `executeSchedule`'s `UpdateLastRun` sets `LastRun := execTime`, and for
one-time schedules the disable goroutine's `repository.Update` persists
`Enabled := false`. -/
def tickUpdate (now : GoTime) (execTime : Int) (schedule : Schedule) : Schedule :=
  if schedule.Enabled && scheduleFires schedule now then
    let s1 := { schedule with LastRun := some execTime }
    if schedule.ScheduleType == "once".data then { s1 with Enabled := false } else s1
  else schedule

/-- One completed evaluation pass as a store transition. -/
def tickStore (store : List Schedule) (now : GoTime) (execTime : Int) :
    List Schedule :=
  store.map (tickUpdate now execTime)

/-! ## Scheduler lifecycle (scheduler_service.go:288-368) -/

/-- The lifecycle state of `SchedulerService`: the `running` flag, whether
`stopChan` (created once in `NewSchedulerService`) has been closed, and
whether the ticker is active. -/
structure SchedulerState where
  running : Bool
  stopChanClosed : Bool
  tickerActive : Bool
deriving DecidableEq, Repr

/-- `NewSchedulerService` (scheduler_service.go:300-313): a fresh, open stop
channel and no ticker. -/
def newSchedulerService : SchedulerState :=
  { running := false, stopChanClosed := false, tickerActive := false }

/-- `SchedulerService.Start` (scheduler_service.go:316-333): error if already
running, else create the ticker, set `running` and spawn `run`. The stop
channel is not touched. The returned `Bool` is true when an error
("scheduler already running") is returned. -/
def schedulerStart (s : SchedulerState) : SchedulerState × Bool :=
  if s.running then (s, true)
  else ({ s with tickerActive := true, running := true }, false)

/-- `SchedulerService.Stop` (scheduler_service.go:336-350): no-op if not
running, else close `stopChan`, stop the ticker and clear `running`. -/
def schedulerStop (s : SchedulerState) : SchedulerState :=
  if !s.running then s
  else { s with stopChanClosed := true, tickerActive := false, running := false }

/-- The number of `checkSchedules` evaluation passes performed by one `run`
goroutine (scheduler_service.go:353-368), launched when `stopChan` is in
state `stopChanClosed` and given that the ticker fires `tickerFires` times
before the loop is stopped: `run` always performs its unconditional initial
pass (line 355); then, if the stop channel is already closed, the select's
stop case is ready immediately — a minute before the first ticker fire — so
the loop returns without any further pass; otherwise each observed ticker
fire yields one pass. -/
def runChecks (stopChanClosed : Bool) (tickerFires : Nat) : Nat :=
  1 + (if stopChanClosed then 0 else tickerFires)

/-! ## Shared fixtures and helper lemmas -/

/-- A collaborator environment in which every call succeeds: all groups
allowed, saves succeed, no prior context, the LLM answers, sends succeed. -/
def chatEnvOK : ChatEnv :=
  { isAllowed := fun _ => true
    saveErr := fun _ => none
    getCtx := fun _ _ => .ok []
    generate := fun _ => ({ Content := "LLM answer".data, Error := none }, none)
    sendReplyErr := fun _ _ _ _ => none
    sendImageErr := fun _ _ _ _ _ _ => none
    webhookCall := fun _ _ => .error "connection refused".data
    formatWebhook := fun t => t }

/-- A fixed inbound message whose content carries the `"@bot"` trigger. -/
def msgHello : Message :=
  { ID := "msg1".data, GroupJID := "group@g.us".data, Sender := "user@s".data,
    Content := "@bot hello".data, Timestamp := 100,
    IsFromBot := false, IsReplyToBot := false }

/-- Effects that deliver something to the chat or invoke a backend. -/
def isSendOrInvoke : Effect → Bool
  | .sendReply _ _ _ _ => true
  | .sendImage _ _ _ _ _ _ => true
  | .callWebhook _ _ => true
  | .generate _ => true
  | .save _ => false

/-- Whether an effect is an LLM generation. -/
def isGenerateEffect : Effect → Bool
  | .generate _ => true
  | _ => false

/-- `List.find?` returns the marked element when everything before it tests
false and it tests true (the shape of first-match-wins scans). -/
theorem find?_first_marked {α : Type} (p : α → Bool) (pre rest : List α) (x : α)
    (hpre : ∀ a ∈ pre, p a = false) (hx : p x = true) :
    (pre ++ x :: rest).find? p = some x := by
  induction pre with
  | nil => simp [List.find?_cons, hx]
  | cons a as ih =>
      have ha := hpre a (by simp)
      simp only [List.cons_append, List.find?_cons, ha]
      exact ih (fun b hb => hpre b (by simp [hb]))

/-- Whatever the collaborators do, the webhook path's first attempted effect
is the save of the (trigger-stripped) inbound message. -/
theorem processWebhookMessage_head (env : ChatEnv) (msg : Message)
    (wh : WebhookConfig) :
    (processWebhookMessage env msg wh).1.head? = some (.save msg) := by
  simp only [processWebhookMessage]
  repeat' split
  all_goals rfl

/-- Whatever the collaborators do, the LLM path's first attempted effect is
the save of the inbound message. -/
theorem generateAndReply_head (env : ChatEnv) (msg : Message) :
    (generateAndReply env msg).1.head? = some (.save msg) := by
  simp only [generateAndReply]
  repeat' split
  all_goals rfl

/-- The webhook path never invokes the LLM, for any collaborator outcome. -/
theorem processWebhookMessage_no_generate (env : ChatEnv) (msg : Message)
    (wh : WebhookConfig) :
    (processWebhookMessage env msg wh).1.all (fun e => !isGenerateEffect e) = true := by
  simp only [processWebhookMessage]
  repeat' split
  all_goals rfl

/-- Routing after the trigger decision: whichever way a webhook rule is
looked up, the first attempted effect is the inbound save. -/
theorem route_head (env : ChatEnv) (m : Message) (o : Option WebhookConfig) :
    ((match o with
      | some wh => processWebhookMessage env m wh
      | none => generateAndReply env m).1.head?) = some (.save m) := by
  cases o with
  | none => exact generateAndReply_head env m
  | some wh => exact processWebhookMessage_head env m wh

/-! ## Claims about the trigger router -/

/-- C1, counterexample: in an allowed group, with the trigger matched, a
failing save of the inbound message leaves a trace with no send, no webhook
invocation and no LLM generation, and `ProcessMessage` returns the wrapped
save error — the reply is not generated or sent, contradicting the claim
that the pipeline is not aborted. -/
def chatEnvSaveFail : ChatEnv :=
  { chatEnvOK with saveErr := fun _ => some "disk full".data }

/-- C1: a persistence failure on the inbound message aborts the pipeline:
no reply is generated or sent (counterexample to the claim as stated). -/
theorem inbound_save_failure_no_reply_cex :
    ((ProcessMessage chatEnvSaveFail ["@bot".data] [] msgHello).1.all
        (fun e => !isSendOrInvoke e)) = true ∧
    (ProcessMessage chatEnvSaveFail ["@bot".data] [] msgHello).2 =
      .error (.saveMessage "disk full".data) := by
  constructor
  · decide
  · rfl

/-- C1 (amended): a failure to persist the inbound message aborts the
pipeline on both the LLM path and the webhook path — the save error is
returned (after logging) and nothing further is attempted; only the
best-effort save of the outgoing bot message is merely logged. -/
theorem inbound_save_failure_aborts (env : ChatEnv) (msg : Message)
    (wh : WebhookConfig) (e : GoStr) (h : env.saveErr msg = some e) :
    generateAndReply env msg = ([.save msg], .error (.saveMessage e)) ∧
    processWebhookMessage env msg wh = ([.save msg], .error (.saveMessage e)) := by
  constructor
  · unfold generateAndReply
    simp [h]
  · unfold processWebhookMessage
    simp [h]

/-- C1 (amended), witness at a concrete failing repository. -/
theorem inbound_save_failure_aborts_witness :
    generateAndReply chatEnvSaveFail msgHello =
      ([.save msgHello], .error (.saveMessage "disk full".data)) ∧
    processWebhookMessage chatEnvSaveFail msgHello
        { SubTrigger := "!img".data, URL := "http://wh".data, Timeout := [] } =
      ([.save msgHello], .error (.saveMessage "disk full".data)) :=
  inbound_save_failure_aborts chatEnvSaveFail msgHello
    { SubTrigger := "!img".data, URL := "http://wh".data, Timeout := [] }
    "disk full".data rfl

/-- C2, counterexample: with trigger list `["@bot"]` and content
`" @bot hello"` (one leading space), the trigger matches against the trimmed
content but `strings.TrimPrefix` is applied to the original content, which
does not start with `"@bot"` — so the content passed to further processing
(the content of the saved inbound message) is `"@bot hello"`, not the
`"hello"` the claim prescribes. -/
theorem trigger_strip_leading_space_cex :
    (ProcessMessage chatEnvOK ["@bot".data] []
        { msgHello with Content := " @bot hello".data }).1.head? =
      some (.save { msgHello with Content := "@bot hello".data }) ∧
    ("@bot hello".data : GoStr) ≠ "hello".data := by
  constructor
  · decide
  · decide

/-- C2 (amended): for a non-reply message in an allowed group, the first
configured trigger word that is a prefix of the trimmed content wins, and the
content passed to further processing is the original (untrimmed) content with
that trigger word trimmed off its front, trimmed again — which coincides with
stripping from the trimmed content exactly when the content has no leading
white space. -/
theorem trigger_first_match_strips_original (env : ChatEnv)
    (pre rest : List GoStr) (t0 : GoStr) (wc : List WebhookConfig)
    (msg : Message)
    (hallow : env.isAllowed msg.GroupJID = true)
    (hreply : msg.IsReplyToBot = false)
    (hpre : ∀ t ∈ pre, HasPrefix (TrimSpace msg.Content) t = false)
    (ht0 : HasPrefix (TrimSpace msg.Content) t0 = true) :
    (ProcessMessage env (pre ++ t0 :: rest) wc msg).1.head? =
      some (.save { msg with Content := TrimSpace (TrimPrefix msg.Content t0) }) := by
  have hfind : (pre ++ t0 :: rest).find?
      (fun trigger => HasPrefix (TrimSpace msg.Content) trigger) = some t0 :=
    find?_first_marked _ pre rest t0 hpre ht0
  have hlen : 0 < (pre ++ t0 :: rest).length := by simp
  simp only [ProcessMessage, hallow, hreply, hfind, hlen, Bool.not_true, Bool.not_false,
    Bool.and_true, if_false, if_true, Bool.false_eq_true, decide_eq_true_eq, if_pos]
  exact route_head env _ _

/-- C2 (amended), witness: triggers `["@x", "@bot", "@b"]` on
`"@bot hello"` match `"@bot"` (not `"@x"`, not `"@b"`) and strip to
`"hello"`. -/
theorem trigger_first_match_strips_original_witness :
    (ProcessMessage chatEnvOK (["@x".data] ++ "@bot".data :: ["@b".data]) []
        msgHello).1.head? =
      some (.save { msgHello with
        Content := TrimSpace (TrimPrefix msgHello.Content "@bot".data) }) :=
  trigger_first_match_strips_original chatEnvOK ["@x".data] ["@b".data]
    "@bot".data [] msgHello rfl rfl (by decide) (by decide)

/-- C6, counterexample: with an empty configured trigger-word list, a
non-reply message in an allowed group is not dropped: the trigger branch is
skipped entirely and the message is processed on the LLM path, beginning with
a persisted inbound message — not the zero sends and zero persists the claim
asserts for the empty-list case. -/
theorem empty_trigger_list_processes_cex :
    (ProcessMessage chatEnvOK [] [] msgHello).1.head? = some (.save msgHello) ∧
    (ProcessMessage chatEnvOK [] [] msgHello).1.length = 4 := by
  constructor
  · decide
  · decide

/-- C6 (amended): when at least one trigger word is configured, a message in
an allowed group that is not a reply to the bot and whose trimmed content
starts with no configured trigger word produces no side effect at all (and
no error); with an empty configured list, every allowed message is processed
on the LLM path instead. -/
theorem unmatched_message_no_effects (env : ChatEnv) (tw : List GoStr)
    (wc : List WebhookConfig) (msg : Message)
    (hne : tw ≠ [])
    (hreply : msg.IsReplyToBot = false)
    (hno : ∀ t ∈ tw, HasPrefix (TrimSpace msg.Content) t = false) :
    ProcessMessage env tw wc msg = ([], .ok ()) := by
  unfold ProcessMessage
  cases hallow : env.isAllowed msg.GroupJID with
  | false => simp
  | true =>
      have hlen : tw.length > 0 := List.length_pos.mpr hne
      have hfind : tw.find? (fun trigger => HasPrefix (TrimSpace msg.Content) trigger) = none := by
        rw [List.find?_eq_none]
        intro t ht
        simp [hno t ht]
      simp [hreply, hlen, hfind]

/-- C6 (amended), witness: trigger `"@bot"`, content `"good morning"`. -/
theorem unmatched_message_no_effects_witness :
    ProcessMessage chatEnvOK ["@bot".data] []
      { msgHello with Content := "good morning".data } = ([], .ok ()) :=
  unmatched_message_no_effects chatEnvOK ["@bot".data] []
    { msgHello with Content := "good morning".data } (by decide) rfl (by decide)

/-- A webhook rule whose sub-trigger does not occur in the test messages. -/
def whOther : WebhookConfig :=
  { SubTrigger := "!weather".data, URL := "http://weather".data, Timeout := "60s".data }

/-- A webhook rule with sub-trigger `"!img"`. -/
def whImage : WebhookConfig :=
  { SubTrigger := "!img".data, URL := "http://imgwh".data, Timeout := [] }

/-- C7, counterexample: a reply-to-bot message whose content starts with the
configured sub-trigger `"!img"` is not routed to the webhook — the sub-trigger
scan lives inside the trigger-word branch, which reply-to-bot messages skip —
and instead the LLM fallback is invoked. -/
theorem reply_to_bot_bypasses_webhook_cex :
    (ProcessMessage chatEnvOK ["@bot".data] [whImage]
        { msgHello with Content := "!img cat".data, IsReplyToBot := true }).1.all
      (fun e => match e with | .callWebhook _ _ => false | _ => true) = true ∧
    (ProcessMessage chatEnvOK ["@bot".data] [whImage]
        { msgHello with Content := "!img cat".data, IsReplyToBot := true }).1.any
      isGenerateEffect = true := by
  constructor
  · decide
  · decide

/-- C7 (amended): for a message triggered by a matched trigger word, when
some configured sub-trigger prefix matches the post-trigger trimmed content,
the message is routed to the first matching webhook rule in stored order and
the LLM fallback is never invoked; messages triggered by the reply-to-bot
flag skip sub-trigger routing entirely and always take the LLM path. -/
theorem subtrigger_routes_first_webhook (env : ChatEnv)
    (pre rest : List GoStr) (t0 : GoStr)
    (wpre wrest : List WebhookConfig) (wh : WebhookConfig) (msg : Message)
    (hallow : env.isAllowed msg.GroupJID = true)
    (hreply : msg.IsReplyToBot = false)
    (hpre : ∀ t ∈ pre, HasPrefix (TrimSpace msg.Content) t = false)
    (ht0 : HasPrefix (TrimSpace msg.Content) t0 = true)
    (hwpre : ∀ w ∈ wpre,
      HasPrefix (TrimSpace (TrimSpace (TrimPrefix msg.Content t0))) w.SubTrigger = false)
    (hwh : HasPrefix (TrimSpace (TrimSpace (TrimPrefix msg.Content t0))) wh.SubTrigger = true) :
    ProcessMessage env (pre ++ t0 :: rest) (wpre ++ wh :: wrest) msg =
      processWebhookMessage env
        { msg with Content := TrimSpace (TrimPrefix msg.Content t0) } wh ∧
    (ProcessMessage env (pre ++ t0 :: rest) (wpre ++ wh :: wrest) msg).1.all
      (fun e => !isGenerateEffect e) = true := by
  have hfind : (pre ++ t0 :: rest).find?
      (fun trigger => HasPrefix (TrimSpace msg.Content) trigger) = some t0 :=
    find?_first_marked _ pre rest t0 hpre ht0
  have hwfind : findMatchingWebhook (wpre ++ wh :: wrest)
      (TrimSpace (TrimPrefix msg.Content t0)) = some wh := by
    unfold findMatchingWebhook
    exact find?_first_marked _ wpre wrest wh hwpre hwh
  have hlen : 0 < (pre ++ t0 :: rest).length := by simp
  have hmain : ProcessMessage env (pre ++ t0 :: rest) (wpre ++ wh :: wrest) msg =
      processWebhookMessage env
        { msg with Content := TrimSpace (TrimPrefix msg.Content t0) } wh := by
    simp only [ProcessMessage, hallow, hreply, hfind, hlen, hwfind, Bool.not_true,
      Bool.not_false, Bool.and_true, if_false, if_true, Bool.false_eq_true,
      decide_eq_true_eq, if_pos]
  exact ⟨hmain, hmain ▸ processWebhookMessage_no_generate env _ wh⟩

/-- C7 (amended), witness: content `"@bot !img cat"`, rules
`[!weather, !img]` — the `"!img"` rule is chosen, no LLM call. -/
theorem subtrigger_routes_first_webhook_witness :
    ProcessMessage chatEnvOK ([] ++ "@bot".data :: []) ([whOther] ++ whImage :: [])
        { msgHello with Content := "@bot !img cat".data } =
      processWebhookMessage chatEnvOK
        { msgHello with Content := TrimSpace (TrimPrefix
            ({ msgHello with Content := "@bot !img cat".data } : Message).Content
            "@bot".data) } whImage ∧
    (ProcessMessage chatEnvOK ([] ++ "@bot".data :: []) ([whOther] ++ whImage :: [])
        { msgHello with Content := "@bot !img cat".data }).1.all
      (fun e => !isGenerateEffect e) = true :=
  subtrigger_routes_first_webhook chatEnvOK [] [] "@bot".data [whOther] [] whImage
    { msgHello with Content := "@bot !img cat".data }
    rfl rfl (by decide) (by decide) (by decide) (by decide)

/-- An environment whose context fetch fails downstream of triggering. -/
def chatEnvCtxFail : ChatEnv :=
  { chatEnvOK with getCtx := fun _ _ => .error "sql: connection closed".data }

/-- C8, counterexample: with the trigger matched and the inbound message
saved, a failing context fetch aborts with an error and the chat receives no
message at all — zero fixed error replies, not the exactly one the claim
asserts for every downstream failure. -/
theorem downstream_failure_no_error_reply_cex :
    (ProcessMessage chatEnvCtxFail ["@bot".data] [] msgHello).1 =
      [.save { msgHello with Content := "hello".data }] ∧
    (ProcessMessage chatEnvCtxFail ["@bot".data] [] msgHello).2 =
      .error (.getContext "sql: connection closed".data) := by
  constructor
  · decide
  · rfl

/-- C8 (amended): a failure of the LLM generation or of the webhook
invocation produces exactly one reply attempt carrying the fixed error text
(so no internal detail can reach the chat) and no bot message is persisted
after the failure; other downstream failures (context fetch, the send
itself) abort without sending any error reply. -/
theorem invoker_failure_single_error_reply (env : ChatEnv) (msg : Message)
    (wh : WebhookConfig) (e : GoStr) (ctx : List Message)
    (resp : LLMResponse) (genErr : Option GoStr)
    (hsave : env.saveErr msg = none) :
    (env.webhookCall wh.URL (TrimSpace (TrimPrefix msg.Content wh.SubTrigger)) = .error e →
      processWebhookMessage env msg wh =
        ([.save msg,
          .callWebhook wh.URL (TrimSpace (TrimPrefix msg.Content wh.SubTrigger)),
          .sendReply msg.GroupJID errorMsg msg.ID msg.Sender],
         .error (.callWebhook e))) ∧
    (env.getCtx msg.GroupJID 10 = .ok ctx →
     env.generate { Prompt := msg.Content, Context := ctx } = (resp, genErr) →
     (genErr.isSome || resp.Error.isSome) = true →
      generateAndReply env msg =
        ([.save msg,
          .generate { Prompt := msg.Content, Context := ctx },
          .sendReply msg.GroupJID errorMsg msg.ID msg.Sender],
         .error (.generateResponse genErr))) := by
  constructor
  · intro hcall
    simp only [processWebhookMessage, hsave, hcall]
  · intro hctx hgen herr
    simp only [generateAndReply, hsave, hctx, hgen, herr, if_true]

/-- An environment in which the webhook call and the LLM both fail. -/
def chatEnvDownFail : ChatEnv :=
  { chatEnvOK with
      generate := fun _ => ({ Content := [], Error := none }, some "model overloaded".data) }

/-- C8 (amended), witness: a failing webhook call and a failing LLM call
each yield exactly the fixed error reply and an aborted pipeline. -/
theorem invoker_failure_single_error_reply_witness :
    processWebhookMessage chatEnvDownFail msgHello whImage =
      ([.save msgHello,
        .callWebhook whImage.URL (TrimSpace (TrimPrefix msgHello.Content whImage.SubTrigger)),
        .sendReply msgHello.GroupJID errorMsg msgHello.ID msgHello.Sender],
       .error (.callWebhook "connection refused".data)) ∧
    generateAndReply chatEnvDownFail msgHello =
      ([.save msgHello,
        .generate { Prompt := msgHello.Content, Context := [] },
        .sendReply msgHello.GroupJID errorMsg msgHello.ID msgHello.Sender],
       .error (.generateResponse (some "model overloaded".data))) :=
  ⟨(invoker_failure_single_error_reply chatEnvDownFail msgHello whImage
      "connection refused".data [] { Content := [], Error := none }
      (some "model overloaded".data) rfl).1 rfl,
   (invoker_failure_single_error_reply chatEnvDownFail msgHello whImage
      "connection refused".data [] { Content := [], Error := none }
      (some "model overloaded".data) rfl).2 rfl rfl rfl⟩

/-! ## Claims about the schedule evaluator -/

/-- A Wednesday 09:00 local-time instant. -/
def nowWed9 : GoTime :=
  { unixNano := 1749631800000000000, date := { year := 2025, month := 6, day := 11 },
    weekday := 3, hour := 9, minute := 0 }

/-- A one-time schedule whose date and time match `nowWed9`, last run 30
seconds before `nowWed9`. -/
def schedOnce : Schedule :=
  { ID := "sch1".data, Name := "oneshot".data, GroupJID := "group@g.us".data,
    WebhookURL := "http://hook".data, ScheduleType := "once".data,
    DayOfWeek := none, Month := none, DayOfMonth := none,
    Hour := 9, Minute := 0,
    SpecificDate := some { year := 2025, month := 6, day := 11 },
    Enabled := true, LastRun := some (1749631800000000000 - 30000000000),
    CreatedAt := 0, UpdatedAt := 0 }

/-- A weekly schedule for day-of-week 3 (Wednesday) at 09:00, never run. -/
def schedWeekly : Schedule :=
  { schedOnce with
      ID := "sch2".data, ScheduleType := "weekly".data,
      SpecificDate := none, DayOfWeek := some 3, LastRun := none }

/-- C3: for a schedule whose calendar rule matches the current minute, the
evaluator skips firing exactly when `last_run` is non-null and the elapsed
time since `last_run` is strictly under one minute. -/
theorem duplicate_fire_guard_iff (schedule : Schedule) (now : GoTime)
    (h : shouldExecuteSchedule schedule now = true) :
    scheduleFires schedule now = false ↔
      ∃ lastRun, schedule.LastRun = some lastRun ∧
        now.unixNano - lastRun < minuteNanos := by
  unfold scheduleFires recentlyRun
  rw [h]
  cases hlr : schedule.LastRun with
  | none => simp
  | some lastRun => simp

/-- C3, witness: the matching one-time schedule with `last_run` 30 seconds
ago is skipped; the same schedule with `last_run` 2 minutes ago fires. -/
theorem duplicate_fire_guard_iff_witness :
    scheduleFires schedOnce nowWed9 = false ∧
    scheduleFires { schedOnce with
        LastRun := some (nowWed9.unixNano - 120000000000) } nowWed9 = true ∧
    (scheduleFires schedOnce nowWed9 = false ↔
      ∃ lastRun, schedOnce.LastRun = some lastRun ∧
        nowWed9.unixNano - lastRun < minuteNanos) :=
  ⟨by decide, by decide, duplicate_fire_guard_iff schedOnce nowWed9 (by decide)⟩

/-- C5: an enabled weekly schedule matches an evaluation instant exactly when
its day-of-week equals the current local day-of-week and its hour and minute
equal the current local hour and minute. -/
theorem weekly_match_iff (schedule : Schedule) (now : GoTime) (w : Int)
    (hkind : schedule.ScheduleType = "weekly".data)
    (hdow : schedule.DayOfWeek = some w) :
    shouldExecuteSchedule schedule now = true ↔
      (w = now.weekday ∧ schedule.Hour = now.hour ∧ schedule.Minute = now.minute) := by
  unfold shouldExecuteSchedule
  rw [hkind, hdow]
  have h1 : ("weekly".data == "once".data) = false := by decide
  have h2 : ("weekly".data == "yearly".data) = false := by decide
  have h3 : ("weekly".data == "weekly".data) = true := by decide
  simp [h1, h2, h3, and_assoc]

/-- C5, witness: day-of-week 3 (Wednesday), 09:00 — matches (and fires) at
Wednesday 09:00, does not match at 09:01 nor on Thursday at 09:00. -/
theorem weekly_match_iff_witness :
    (shouldExecuteSchedule schedWeekly nowWed9 = true ↔
      ((3 : Int) = nowWed9.weekday ∧ schedWeekly.Hour = nowWed9.hour ∧
        schedWeekly.Minute = nowWed9.minute)) ∧
    shouldExecuteSchedule schedWeekly nowWed9 = true ∧
    shouldExecuteSchedule schedWeekly { nowWed9 with minute := 1 } = false ∧
    shouldExecuteSchedule schedWeekly { nowWed9 with weekday := 4 } = false ∧
    scheduleFires schedWeekly nowWed9 = true :=
  ⟨weekly_match_iff schedWeekly nowWed9 3 rfl rfl,
   by decide, by decide, by decide, by decide⟩

/-- Any schedule fired by an evaluation pass was enabled when the pass read
the store. -/
theorem firedSchedules_enabled (store : List Schedule) (now : GoTime)
    (s : Schedule) (h : s ∈ firedSchedules store now) : s.Enabled = true := by
  unfold firedSchedules at h
  have h1 := (List.mem_filter.mp h).1
  exact (List.mem_filter.mp h1).2

/-- C4: when an enabled one-time schedule fires on a pass, the disable
update (`Enabled := false`, persisted via `repository.Update`) is dispatched
— independently of the webhook call's outcome, which plays no part in
`checkSchedulesActions` — and once the asynchronous updates of the pass have
been applied to the store, the schedule's record is disabled, so no later
evaluation pass, whatever its wall-clock conditions, fires it again. -/
theorem once_schedule_retires (store : List Schedule) (s : Schedule)
    (now1 : GoTime) (t : Int)
    (hkind : s.ScheduleType = "once".data)
    (hen : s.Enabled = true)
    (hfire : scheduleFires s now1 = true)
    (hmem : s ∈ store) :
    TickAction.disable { s with Enabled := false } ∈ checkSchedulesActions store now1 ∧
    tickUpdate now1 t s ∈ tickStore store now1 t ∧
    (tickUpdate now1 t s).Enabled = false ∧
    ∀ now2, tickUpdate now1 t s ∉ firedSchedules (tickStore store now1 t) now2 := by
  have hupd : (tickUpdate now1 t s).Enabled = false := by
    unfold tickUpdate
    simp [hen, hfire, hkind]
  refine ⟨?_, ?_, hupd, ?_⟩
  · unfold checkSchedulesActions
    refine List.mem_flatMap.mpr ⟨s, List.mem_filter.mpr ⟨hmem, hen⟩, ?_⟩
    simp [hfire, hkind]
  · exact List.mem_map.mpr ⟨s, hmem, rfl⟩
  · intro now2 hmem2
    have henabled := firedSchedules_enabled _ _ _ hmem2
    rw [hupd] at henabled
    exact Bool.false_ne_true henabled

/-- A never-run copy of the matching one-time schedule (so it fires). -/
def schedOnceFresh : Schedule := { schedOnce with LastRun := none }

/-- C4, witness at a one-element store. -/
theorem once_schedule_retires_witness :
    TickAction.disable { schedOnceFresh with Enabled := false } ∈
      checkSchedulesActions [schedOnceFresh] nowWed9 ∧
    tickUpdate nowWed9 nowWed9.unixNano schedOnceFresh ∈
      tickStore [schedOnceFresh] nowWed9 nowWed9.unixNano ∧
    (tickUpdate nowWed9 nowWed9.unixNano schedOnceFresh).Enabled = false ∧
    ∀ now2, tickUpdate nowWed9 nowWed9.unixNano schedOnceFresh ∉
      firedSchedules (tickStore [schedOnceFresh] nowWed9 nowWed9.unixNano) now2 :=
  once_schedule_retires [schedOnceFresh] schedOnceFresh nowWed9 nowWed9.unixNano
    rfl rfl (by decide) (by simp)

/-- C9: a webhook response typed `image/png` or `image/jpeg` is sent as an
image with an empty caption by both subsystems, and the recorded text is the
literal marker `"[Image sent]"` — the persisted bot message's content in the
trigger router, the successful execution's response in the schedule
evaluator — never the response's raw bytes. -/
theorem image_response_marker (env : ChatEnv) (senv : SchedEnv) (msg : Message)
    (wh : WebhookConfig) (resp respS : WebhookResponse) (schedule : Schedule)
    (execID : GoStr) (t : Int)
    (hsave : env.saveErr msg = none)
    (hcall : env.webhookCall wh.URL
      (TrimSpace (TrimPrefix msg.Content wh.SubTrigger)) = .ok resp)
    (himg : resp.ContentType = "image/png".data ∨ resp.ContentType = "image/jpeg".data)
    (hsend : env.sendImageErr msg.GroupJID resp.Content resp.ContentType []
      msg.ID msg.Sender = none)
    (hcallS : senv.webhookCall schedule.WebhookURL [] = .ok respS)
    (himgS : respS.ContentType = "image/png".data ∨ respS.ContentType = "image/jpeg".data)
    (hsendS : senv.sendImageErr schedule.GroupJID respS.Content respS.ContentType
      [] [] [] = none) :
    processWebhookMessage env msg wh =
      ([.save msg,
        .callWebhook wh.URL (TrimSpace (TrimPrefix msg.Content wh.SubTrigger)),
        .sendImage msg.GroupJID resp.Content resp.ContentType [] msg.ID msg.Sender,
        .save (mkBotMessage msg "[Image sent]".data)], .ok ()) ∧
    executeSchedule senv schedule execID t =
      [.updateLastRun schedule.ID t,
       .callWebhook schedule.WebhookURL [],
       .sendImage schedule.GroupJID respS.Content respS.ContentType [] [] [],
       .logExecution { ID := execID, ScheduleID := schedule.ID, ExecutedAt := t,
                       Success := true, Error := [],
                       Response := "[Image sent]".data }] := by
  have hc : (resp.ContentType == "image/jpeg".data ||
      resp.ContentType == "image/png".data) = true := by
    rcases himg with h | h <;> rw [h] <;> decide
  have hcS : (respS.ContentType == "image/jpeg".data ||
      respS.ContentType == "image/png".data) = true := by
    rcases himgS with h | h <;> rw [h] <;> decide
  constructor
  · simp only [processWebhookMessage, hsave, hcall, hc, if_true, hsend]
  · simp only [executeSchedule, hcallS, hcS, if_true, hsendS]

/-- A PNG webhook response fixture. -/
def respPng : WebhookResponse :=
  { ContentType := "image/png".data, Content := [137, 80, 78, 71], TextContent := [] }

/-- Router collaborators whose webhook call returns the PNG response. -/
def chatEnvImg : ChatEnv := { chatEnvOK with webhookCall := fun _ _ => .ok respPng }

/-- Evaluator collaborators whose webhook call returns the PNG response. -/
def schedEnvImg : SchedEnv :=
  { webhookCall := fun _ _ => .ok respPng
    sendImageErr := fun _ _ _ _ _ _ => none
    sendMessageErr := fun _ _ => none
    formatWebhook := fun t => t }

/-- C9, witness at the PNG fixtures. -/
theorem image_response_marker_witness :
    processWebhookMessage chatEnvImg msgHello whImage =
      ([.save msgHello,
        .callWebhook whImage.URL
          (TrimSpace (TrimPrefix msgHello.Content whImage.SubTrigger)),
        .sendImage msgHello.GroupJID respPng.Content respPng.ContentType []
          msgHello.ID msgHello.Sender,
        .save (mkBotMessage msgHello "[Image sent]".data)], .ok ()) ∧
    executeSchedule schedEnvImg schedWeekly "exec1".data nowWed9.unixNano =
      [.updateLastRun schedWeekly.ID nowWed9.unixNano,
       .callWebhook schedWeekly.WebhookURL [],
       .sendImage schedWeekly.GroupJID respPng.Content respPng.ContentType [] [] [],
       .logExecution { ID := "exec1".data, ScheduleID := schedWeekly.ID,
                       ExecutedAt := nowWed9.unixNano, Success := true, Error := [],
                       Response := "[Image sent]".data }] :=
  image_response_marker chatEnvImg schedEnvImg msgHello whImage respPng respPng
    schedWeekly "exec1".data nowWed9.unixNano
    rfl rfl (Or.inl rfl) rfl rfl (Or.inl rfl) rfl

/-! ## The evaluator lifecycle claim -/

/-- C10, counterexample: after `Start; Stop; Start`, the second `Start`
succeeds and marks the evaluator running with the stop channel already
closed — but the relaunched loop performs its unconditional initial
evaluation pass (`run` calls `checkSchedules` before entering the select),
so exactly one evaluation pass occurs after the first `Stop`, not zero. -/
theorem restart_initial_check_cex :
    (schedulerStart (schedulerStop (schedulerStart newSchedulerService).1)).2 = false ∧
    (schedulerStart (schedulerStop
      (schedulerStart newSchedulerService).1)).1.running = true ∧
    (schedulerStart (schedulerStop
      (schedulerStart newSchedulerService).1)).1.stopChanClosed = true ∧
    runChecks (schedulerStart (schedulerStop
      (schedulerStart newSchedulerService).1)).1.stopChanClosed 5 = 1 ∧
    runChecks (schedulerStart (schedulerStop
      (schedulerStart newSchedulerService).1)).1.stopChanClosed 5 ≠ 0 := by
  refine ⟨?_, ?_, ?_, ?_, ?_⟩ <;> decide

/-- C10 (amended): once `Stop` has returned on a previously running
evaluator, a subsequent `Start` returns success and marks it running, but the
relaunched loop — seeing the stop channel, created once at construction and
closed by `Stop`, already closed — performs exactly its one unconditional
initial evaluation pass and exits: no ticker-driven pass ever occurs, so the
evaluator cannot truly be restarted within one process lifetime. -/
theorem restart_runs_once_then_exits (s : SchedulerState) (h : s.running = true) :
    (schedulerStart (schedulerStop s)).2 = false ∧
    (schedulerStart (schedulerStop s)).1.running = true ∧
    (schedulerStart (schedulerStop s)).1.stopChanClosed = true ∧
    ∀ n, runChecks (schedulerStart (schedulerStop s)).1.stopChanClosed n = 1 := by
  unfold schedulerStart schedulerStop runChecks
  simp [h]

/-- C10 (amended), witness: start, stop, start from the fresh service. -/
theorem restart_runs_once_then_exits_witness :
    (schedulerStart (schedulerStop (schedulerStart newSchedulerService).1)).2 = false ∧
    (schedulerStart (schedulerStop
      (schedulerStart newSchedulerService).1)).1.running = true ∧
    (schedulerStart (schedulerStop
      (schedulerStart newSchedulerService).1)).1.stopChanClosed = true ∧
    ∀ n, runChecks (schedulerStart (schedulerStop
      (schedulerStart newSchedulerService).1)).1.stopChanClosed n = 1 :=
  restart_runs_once_then_exits (schedulerStart newSchedulerService).1 rfl
